import Mathlib

/-!
Shallow embedding of `src/source/MapView.ts` from the three-geo-three
repository (a TypeScript port of geo-three).

The repository ships a single source file, `MapView.ts`.  The node
classes (`MapNode`, `MapPlaneNode`, `MapSphereNode`, `MapHeightNode`,
`MapHeightNodeShader`), the providers and the LOD controls are external
collaborators: only the parts of their behaviour that `MapView.ts`
touches are modelled, from the spec, and marked as such.

Modelling conventions:
* JavaScript object references are modelled by identity tokens (`Nat`
  ids); `!==` on providers is inequality of `Provider` values.
* `undefined`/`null` fields are `Option`; a JS `TypeError` raised by
  dereferencing `undefined` is an explicit error value.
* Methods are state transformers `MapViewState → ...`; a method that can
  throw returns `Option JsError × MapViewState`, the state component
  being the (possibly partially mutated) state at the moment of the
  throw, as in JS where mutations before a throw persist.
-/

namespace GeoThree

/-- Kind of a map tile provider object.  `OpenStreetMapsProvider` is the
class instantiated by the `MapView` constructor when no provider is
given; every other provider class is `custom`. -/
inductive ProviderKind where
  | OpenStreetMapsProvider
  | custom
deriving DecidableEq, Repr

/-- A `MapProvider` object: an identity token (reference) plus its
class.  Providers are shared read-only; `MapView` only ever compares
them by reference (`!==`) and stores them. -/
structure Provider where
  id : Nat
  kind : ProviderKind
deriving DecidableEq, Repr

/-- Class of the LOD control object held by a view.  `LODRaycast` is the
class instantiated by the constructor. -/
inductive LodKind where
  | LODRaycast
  | custom (id : Nat)
deriving DecidableEq, Repr

/-- The constructor (JS class) of the object stored in the `root` field of the view.  The four `MapNode` variants are the values of the static
`mapModes` registry; `NumberCtor` is the JS built-in `Number`
constructor, which is what `root.constructor` evaluates to inside
`setRoot` when `root` is still a numeric mode id. -/
inductive NodeCtor where
  | MapPlaneNode
  | MapSphereNode
  | MapHeightNode
  | MapHeightNodeShader
  | NumberCtor
deriving DecidableEq, Repr

/-- `True` exactly for the four `MapNode` variant constructors of the
registry. -/
def NodeCtor.isMapNodeVariant : NodeCtor → Bool
  | .NumberCtor => false
  | _ => true

/-- Geometry value identity tokens.  Modelled from the spec: each node
variant class (not under `src/`) carries a static `BASE_GEOMETRY` mesh
appropriate to its projection; only its identity matters to
`MapView.ts`, which copies it into `this.geometry`. -/
inductive Geom where
  | planeGeometry
  | sphereGeometry
  | heightGeometry
  | heightShaderGeometry
deriving DecidableEq, Repr

/-- Scale vector identity tokens.  Modelled from the spec: each node
variant class carries a static `BASE_SCALE` vector; `MapView.ts` copies
it into `this.scale` via `Vector3.copy`. -/
inductive ScaleV where
  | planeScale
  | sphereScale
  | heightScale
  | heightShaderScale
deriving DecidableEq, Repr

/-- Modelled from the spec: the static `BASE_GEOMETRY` of each root
constructor.  The JS `Number` constructor has no such static, so
reading it yields `undefined` (`none`). -/
def baseGeometry : NodeCtor → Option Geom
  | .MapPlaneNode => some .planeGeometry
  | .MapSphereNode => some .sphereGeometry
  | .MapHeightNode => some .heightGeometry
  | .MapHeightNodeShader => some .heightShaderGeometry
  | .NumberCtor => none

/-- Modelled from the spec: the static `BASE_SCALE` of each root
constructor; `undefined` (`none`) on the JS `Number` constructor. -/
def baseScale : NodeCtor → Option ScaleV
  | .MapPlaneNode => some .planeScale
  | .MapSphereNode => some .sphereScale
  | .MapHeightNode => some .heightScale
  | .MapHeightNodeShader => some .heightShaderScale
  | .NumberCtor => none

/-- Per-node mutable data of an object sitting in the subtree of the view.
Modelled from the spec for the parts living in `MapNode` (not under
`src/`): `childrenCache` is the cached-children handle (`true` iff
non-null), `loadTexture()` re-requests the tile texture from the
current provider of the owning view, which we record as a request
counter plus the identity of the provider used by the most recent
request.  `mapView` is the back-reference to the owning view. -/
structure NodeData where
  ctor : NodeCtor
  mapView : Option Nat
  childrenCache : Bool
  textureRequests : Nat
  lastRequestProvider : Option Nat
deriving DecidableEq, Repr

/-- A subtree of scene-graph objects under the view: the data of one node
plus its (scene-graph) children. -/
inductive Tree where
  | node (data : NodeData) (children : List Tree)
deriving Repr

/-- The data stored at the top object of a subtree. -/
def Tree.data : Tree → NodeData
  | .node d _ => d

mutual

/-- Decidable structural equality on trees. -/
def Tree.decEq : (a b : Tree) → Decidable (a = b)
  | .node d cs, .node d' cs' =>
    if h1 : d = d' then
      match Tree.decEqList cs cs' with
      | isTrue h2 => isTrue (by rw [h1, h2])
      | isFalse h2 => isFalse (by intro h; injection h; contradiction)
    else isFalse (by intro h; injection h; contradiction)

/-- Decidable structural equality on forests. -/
def Tree.decEqList : (as bs : List Tree) → Decidable (as = bs)
  | [], [] => isTrue rfl
  | [], _ :: _ => isFalse (by intro h; cases h)
  | _ :: _, [] => isFalse (by intro h; cases h)
  | a :: as, b :: bs =>
    match Tree.decEq a b, Tree.decEqList as bs with
    | isTrue h1, isTrue h2 => isTrue (by rw [h1, h2])
    | isFalse h1, _ => isFalse (by intro h; injection h; contradiction)
    | _, isFalse h2 => isFalse (by intro h; injection h; contradiction)

end

instance : DecidableEq Tree := Tree.decEq

/-- Pure parent/child structure of a subtree, with all per-node data
erased: used to state that an operation leaves the tree shape
unchanged. -/
inductive Shape where
  | node (children : List Shape)
deriving Repr

mutual

/-- Shape of a tree. -/
def Tree.shape : Tree → Shape
  | .node _ cs => .node (Tree.shapeList cs)

/-- Shapes of a forest. -/
def Tree.shapeList : List Tree → List Shape
  | [] => []
  | t :: ts => Tree.shape t :: Tree.shapeList ts

end

mutual

/-- Number of scene-graph nodes in a subtree (the node itself and all
its descendants): the resident-node count of that subtree. -/
def Tree.count : Tree → Nat
  | .node _ cs => 1 + Tree.countList cs

/-- Total node count of a forest. -/
def Tree.countList : List Tree → Nat
  | [] => 0
  | t :: ts => Tree.count t + Tree.countList ts

end

mutual

/-- The per-node data of a subtree in preorder (the node itself first,
then its descendants). -/
def Tree.datas : Tree → List NodeData
  | .node d cs => d :: Tree.datasList cs

/-- The per-node data of a forest in preorder. -/
def Tree.datasList : List Tree → List NodeData
  | [] => []
  | t :: ts => Tree.datas t ++ Tree.datasList ts

end

/-- Effect of one `traverse` visit of `MapView.clear` on the data of one
node, `p` being the id of the current provider of the view:
`if (children.childrenCache) { children.childrenCache = null; }` and
`if (children.loadTexture !== undefined) { children.loadTexture(); }`.
The four `MapNode` variants have both members, so their cache is
nulled and a texture request to the current provider is issued
(modelled from the spec: `loadTexture` re-requests the tile from the
current provider).  An object built by the JS `Number` constructor has
neither member, so both guards fail and it is left untouched. -/
def clearData (p : Nat) (d : NodeData) : NodeData :=
  if d.ctor.isMapNodeVariant then
    { d with childrenCache := false,
             textureRequests := d.textureRequests + 1,
             lastRequestProvider := some p }
  else d

mutual

/-- The `traverse` of `MapView.clear` over a subtree: visits the node and
all descendants, applying `clearData` at each; the scene-graph
structure is not touched. -/
def clearTree (p : Nat) : Tree → Tree
  | .node d cs => .node (clearData p d) (clearTreeList p cs)

/-- `clearTree` over a forest. -/
def clearTreeList (p : Nat) : List Tree → List Tree
  | [] => []
  | t :: ts => clearTree p t :: clearTreeList p ts

end

namespace MapView

/-- `MapView.PLANAR`: planar map projection mode id. -/
def PLANAR : Nat := 200

/-- `MapView.SPHERICAL`: spherical map projection mode id. -/
def SPHERICAL : Nat := 201

/-- `MapView.HEIGHT`: planar projection with height deformation. -/
def HEIGHT : Nat := 202

/-- `MapView.HEIGHT_SHADER`: planar projection with GPU height
deformation. -/
def HEIGHT_SHADER : Nat := 203

/-- `MapView.mapModes`: the static registry mapping mode ids to node
variant constructors, in source order. -/
def mapModes : List (Nat × NodeCtor) :=
  [(PLANAR, .MapPlaneNode),
   (SPHERICAL, .MapSphereNode),
   (HEIGHT, .MapHeightNode),
   (HEIGHT_SHADER, .MapHeightNodeShader)]

/-- `MapView.mapModes.get(m)`: `undefined` (`none`) when `m` is not a
key. -/
def mapModesGet (m : Nat) : Option NodeCtor :=
  mapModes.lookup m

/-- `MapView.mapModes.has(m)`. -/
def mapModesHas (m : Nat) : Bool :=
  (mapModesGet m).isSome

end MapView

/-- The state of a `MapView` object.  `viewId` is the JS identity of the
object (used for the `mapView` back-references and for `return
this`); `children` is the scene-graph child list of the view object
itself (`Object3D#children`, managed through `add`/`remove`).  In JS
the tree stored in `root` and the entry of `children` holding it alias
one object; the embedding keeps the two fields equal copies. -/
structure MapViewState where
  viewId : Nat
  lod : LodKind
  provider : Provider
  heightProvider : Option Provider
  root : Option Tree
  children : List Tree
  geometry : Option Geom
  scale : Option ScaleV
deriving DecidableEq, Repr

/-- Errors a `MapView` method can raise: the explicit
`throw new Error(`Map mode ... is not registered.`)` of `setRoot`, and
the JS `TypeError` produced by dereferencing `undefined` (reading a
member such as `.x` during `Vector3.copy(undefined)`). -/
inductive JsError where
  | modeNotRegistered (m : Nat)
  | typeError
deriving DecidableEq, Repr

/-- Argument accepted by `setRoot` and the constructor: a numeric mode
id or a `MapNode` object. -/
inductive RootArg where
  | mode (m : Nat)
  | node (t : Tree)
deriving DecidableEq, Repr

/-- The object produced by `new root.constructor(null, null, null,
this, MapNode.ROOT, 0, 0, 0)` inside `setRoot` when `root` is still a
number: `root.constructor` is the JS built-in `Number`, which ignores
the extra arguments and yields a fresh `Number` object — not a
`MapNode`; it has no `mapView`, no `childrenCache`, no `loadTexture`
and no children. -/
def numberObjectRoot : Tree :=
  .node { ctor := .NumberCtor, mapView := none, childrenCache := false,
          textureRequests := 0, lastRequestProvider := none } []

/-- Set the `mapView` back-reference of the top object of a subtree
(`this.root.mapView = this;`). -/
def Tree.setMapView (v : Nat) : Tree → Tree
  | .node d cs => .node { d with mapView := some v } cs

/-- The tail of `MapView.setRoot` (lines 119–135), run once `root`
holds the object to install:
`if (this.root !== null) { this.remove(this.root); this.root = null; }`
then `this.root = root`,
`this.geometry = this.root.constructor.BASE_GEOMETRY`,
`this.scale.copy(this.root.constructor.BASE_SCALE)`,
`this.root.mapView = this`, `this.add(this.root)`.
`Vector3.copy(undefined)` reads `.x` of `undefined` and throws a
`TypeError`; the mutations made before the throw persist. -/
def setRootInstall (s : MapViewState) (t : Tree) : Option JsError × MapViewState :=
  let s1 := match s.root with
    | some r => { s with children := s.children.erase r, root := none }
    | none => s
  let s2 := { s1 with root := some t, geometry := baseGeometry t.data.ctor }
  match baseScale t.data.ctor with
  | none => (some .typeError, s2)
  | some sc =>
    let t' := t.setMapView s.viewId
    (none, { s2 with scale := some sc, root := some t',
                     children := s2.children ++ [t'] })

/-- `MapView.setRoot` (lines 104–136).  For a numeric argument it
checks the registry, throwing when the mode is unregistered; it then
computes `rootConstructor = MapView.mapModes.get(root)` — which the
source never uses — and builds the new root with
`new root.constructor(...)`, i.e. with the JS `Number` constructor,
since `root` is still the number at that point. -/
def setRoot (s : MapViewState) (arg : RootArg) : Option JsError × MapViewState :=
  match arg with
  | .mode m =>
    if MapView.mapModesHas m then
      let _rootConstructor := MapView.mapModesGet m
      setRootInstall s numberObjectRoot
    else
      (some (.modeNotRegistered m), s)
  | .node t => setRootInstall s t

/-- State effect of `MapView.clear` (lines 171–191): `this.traverse`
visits the view object itself — which has neither `childrenCache` nor
`loadTexture`, so both guards fail on it — and every descendant, where
`clearData` applies.  The provider consulted by the re-requests is the current
provider of the view at call time. -/
def clearState (s : MapViewState) : MapViewState :=
  { s with root := s.root.map (clearTree s.provider.id),
           children := clearTreeList s.provider.id s.children }

/-- `MapView.clear`: mutates the state per `clearState` and executes
`return this` — the returned reference is the view object itself,
modelled by its identity `s.viewId`. -/
def clear (s : MapViewState) : MapViewState × Nat :=
  (clearState s, s.viewId)

/-- `MapView.setProvider` (lines 143–150):
`if (provider !== this.provider) { this.provider = provider;
this.clear(); }`. -/
def setProvider (s : MapViewState) (p : Provider) : MapViewState :=
  if p = s.provider then s
  else clearState { s with provider := p }

/-- `MapView.setHeightProvider` (lines 157–164):
`if (heightProvider !== this.heightProvider)
{ this.heightProvider = heightProvider; this.clear(); }`.
`none` is a `null`/`undefined` argument. -/
def setHeightProvider (s : MapViewState) (hp : Option Provider) : MapViewState :=
  if hp = s.heightProvider then s
  else clearState { s with heightProvider := hp }

/-- The `MapView` constructor (lines 82–95).  `osmId` is the identity
of the `new OpenStreetMapsProvider()` allocated when `provider` is
`undefined` (`none`).  The constructor sets `this.lod = new
LODRaycast()`, defaults the two providers, pre-assigns `this.root`
and then calls `this.setRoot(root)`, which overwrites `this.root`
before any read of it can matter (the only prior use is a
`this.remove` that is a no-op on the still-empty child list): the
pre-assignment is therefore modelled as leaving `root` unset.  An
error thrown by `setRoot` propagates out of the constructor — nothing
catches it. -/
def mkMapView (viewId : Nat) (root : RootArg) (provider : Option Provider)
    (heightProvider : Option Provider) (osmId : Nat) :
    Option JsError × MapViewState :=
  let s0 : MapViewState :=
    { viewId := viewId
      lod := .LODRaycast
      provider := provider.getD { id := osmId, kind := .OpenStreetMapsProvider }
      heightProvider := heightProvider
      root := none
      children := []
      geometry := none
      scale := none }
  setRoot s0 root

/-- One invocation of `updateLOD`, recording the control object it was
invoked on and the arguments `(this, camera, renderer, scene)` it was
passed. -/
structure LodCall where
  control : LodKind
  view : Nat
  camera : Nat
  renderer : Nat
  scene : Nat
deriving DecidableEq, Repr

/-- `MapView.onBeforeRender` (lines 198–201), the hook the renderer
runs before each rendered frame: its body is the single statement
`this.lod.updateLOD(this, camera, renderer, scene);`.  The embedding
returns the list of `updateLOD` invocations the hook performs. -/
def onBeforeRender (s : MapViewState) (renderer scene camera : Nat) :
    List LodCall :=
  [{ control := s.lod, view := s.viewId, camera := camera,
     renderer := renderer, scene := scene }]

/-- The other methods of `MapView`. -/
inductive ViewMethod where
  | setRootM
  | setProviderM
  | setHeightProviderM
  | clearM
  | getMetaDataM
  | raycastM
deriving DecidableEq, Repr

/-- The `updateLOD` invocations performed by the body of each `MapView`
method other than `onBeforeRender`: none of those bodies (lines
104–214) contains a call to `updateLOD`. -/
def methodLodCalls : ViewMethod → List LodCall
  | _ => []

/-- `MapView.raycast` (lines 211–214): the body is `return false;`; the
`intersects` array is never touched. -/
def raycast (_s : MapViewState) (_raycaster : Nat) (intersects : List Nat) :
    Bool × List Nat :=
  (false, intersects)

/-- Number of resident nodes of a view: the size of the tree hanging
off its `root` field (0 when `root` is `null`). -/
def residentCount (s : MapViewState) : Nat :=
  match s.root with
  | none => 0
  | some t => t.count

/-- Shape of the resident tree of a view. -/
def residentShape (s : MapViewState) : Option Shape :=
  s.root.map Tree.shape

/-- Per-node data of all resident nodes of a view, in preorder. -/
def residentDatas (s : MapViewState) : List NodeData :=
  match s.root with
  | none => []
  | some t => t.datas

/-- The constructor (JS class) of the current root object of a view. -/
def rootCtor (s : MapViewState) : Option NodeCtor :=
  s.root.map (fun t => t.data.ctor)

/-- Fixture: a color provider distinct from `providerB`. -/
def providerA : Provider := { id := 1, kind := .custom }

/-- Fixture: a color provider distinct from `providerA`. -/
def providerB : Provider := { id := 2, kind := .custom }

/-- Fixture: data of a loaded plane tile node owned by view 7, with a
live children cache and one past texture request served by provider 1. -/
def planeLeafData : NodeData :=
  { ctor := .MapPlaneNode, mapView := some 7, childrenCache := true,
    textureRequests := 1, lastRequestProvider := some 1 }

/-- Fixture: a leaf plane tile node. -/
def planeLeaf : Tree := .node planeLeafData []

/-- Fixture: a subdivided plane root with four resident leaf children
(five resident nodes in total). -/
def planeRootTree : Tree :=
  .node planeLeafData [planeLeaf, planeLeaf, planeLeaf, planeLeaf]

/-- Fixture: a view in mid-session: ray-based LOD, color provider
`providerA`, no height provider, a five-node resident plane tree
attached both as `root` and as a scene-graph child. -/
def sampleView : MapViewState :=
  { viewId := 7
    lod := .LODRaycast
    provider := providerA
    heightProvider := none
    root := some planeRootTree
    children := [planeRootTree]
    geometry := some .planeGeometry
    scale := some .planeScale }

/-! ### Helper lemmas -/

theorem clearData_ctor (p : Nat) (d : NodeData) : (clearData p d).ctor = d.ctor := by
  unfold clearData; split <;> rfl

theorem clearData_variant (p : Nat) (d : NodeData)
    (h : d.ctor.isMapNodeVariant = true) :
    (clearData p d).childrenCache = false ∧
    (clearData p d).textureRequests = d.textureRequests + 1 ∧
    (clearData p d).lastRequestProvider = some p := by
  unfold clearData; rw [h]; exact ⟨rfl, rfl, rfl⟩

mutual

theorem clearTree_shape (p : Nat) : ∀ t : Tree, (clearTree p t).shape = t.shape
  | .node d cs => by
    simp only [clearTree, Tree.shape, clearTreeList_shape p cs]

theorem clearTreeList_shape (p : Nat) :
    ∀ ts : List Tree, Tree.shapeList (clearTreeList p ts) = Tree.shapeList ts
  | [] => rfl
  | t :: ts => by
    simp only [clearTreeList, Tree.shapeList, clearTree_shape p t,
      clearTreeList_shape p ts]

end

mutual

theorem clearTree_count (p : Nat) : ∀ t : Tree, (clearTree p t).count = t.count
  | .node d cs => by
    simp only [clearTree, Tree.count, clearTreeList_count p cs]

theorem clearTreeList_count (p : Nat) :
    ∀ ts : List Tree, Tree.countList (clearTreeList p ts) = Tree.countList ts
  | [] => rfl
  | t :: ts => by
    simp only [clearTreeList, Tree.countList, clearTree_count p t,
      clearTreeList_count p ts]

end

mutual

theorem clearTree_datas (p : Nat) :
    ∀ t : Tree, (clearTree p t).datas = t.datas.map (clearData p)
  | .node d cs => by
    simp only [clearTree, Tree.datas, List.map_cons, clearTreeList_datas p cs]

theorem clearTreeList_datas (p : Nat) :
    ∀ ts : List Tree,
      Tree.datasList (clearTreeList p ts) = (Tree.datasList ts).map (clearData p)
  | [] => rfl
  | t :: ts => by
    simp only [clearTreeList, Tree.datasList, List.map_append, clearTree_datas p t,
      clearTreeList_datas p ts]

end

theorem clearState_residentShape (s : MapViewState) :
    residentShape (clearState s) = residentShape s := by
  unfold residentShape clearState
  cases s.root <;> simp [clearTree_shape]

theorem clearState_residentCount (s : MapViewState) :
    residentCount (clearState s) = residentCount s := by
  unfold residentCount clearState
  cases s.root <;> simp [clearTree_count]

theorem clearState_residentDatas (s : MapViewState) :
    residentDatas (clearState s) = (residentDatas s).map (clearData s.provider.id) := by
  unfold residentDatas clearState
  cases s.root <;> simp [clearTree_datas]

theorem residentDatas_clearState_variant (s : MapViewState) :
    ∀ d ∈ residentDatas (clearState s), d.ctor.isMapNodeVariant = true →
      d.childrenCache = false ∧ d.lastRequestProvider = some s.provider.id := by
  intro d hd hvar
  rw [clearState_residentDatas] at hd
  obtain ⟨d0, _, rfl⟩ := List.mem_map.mp hd
  rw [clearData_ctor] at hvar
  obtain ⟨h1, _, h3⟩ := clearData_variant s.provider.id d0 hvar
  exact ⟨h1, h3⟩

theorem baseScale_isSome_of_variant :
    ∀ c : NodeCtor, c.isMapNodeVariant = true → ∃ sc, baseScale c = some sc
  | .MapPlaneNode, _ => ⟨_, rfl⟩
  | .MapSphereNode, _ => ⟨_, rfl⟩
  | .MapHeightNode, _ => ⟨_, rfl⟩
  | .MapHeightNodeShader, _ => ⟨_, rfl⟩
  | .NumberCtor, h => absurd h (by decide)

theorem setRootInstall_spec (s : MapViewState) (t : Tree)
    (hv : t.data.ctor.isMapNodeVariant = true) :
    (setRootInstall s t).1 = none ∧
    (setRootInstall s t).2.root = some (t.setMapView s.viewId) ∧
    (setRootInstall s t).2.geometry = baseGeometry t.data.ctor ∧
    (setRootInstall s t).2.scale = baseScale t.data.ctor ∧
    (s.root = none →
      (setRootInstall s t).2.children = s.children ++ [t.setMapView s.viewId]) ∧
    (∀ r, s.root = some r →
      (setRootInstall s t).2.children = s.children.erase r ++ [t.setMapView s.viewId]) ∧
    (setRootInstall s t).2.lod = s.lod ∧
    (setRootInstall s t).2.provider = s.provider ∧
    (setRootInstall s t).2.heightProvider = s.heightProvider ∧
    (setRootInstall s t).2.viewId = s.viewId := by
  obtain ⟨sc, hsc⟩ := baseScale_isSome_of_variant _ hv
  unfold setRootInstall
  cases hr : s.root <;> simp [hr, hsc]

theorem setProvider_changed (s : MapViewState) (p : Provider) (h : p ≠ s.provider) :
    setProvider s p = clearState { s with provider := p } := by
  unfold setProvider; rw [if_neg h]

theorem setHeightProvider_changed (s : MapViewState) (hp : Option Provider)
    (h : hp ≠ s.heightProvider) :
    setHeightProvider s hp = clearState { s with heightProvider := hp } := by
  unfold setHeightProvider; rw [if_neg h]

/-! ### Claim theorems -/

/-- C1 (counterexample): on a view holding five resident nodes,
`setProvider` with a provider distinct from the current one leaves
five resident nodes, not zero — the tree is cleared and reloaded, not
destroyed. -/
theorem C1_counterexample :
    providerB ≠ sampleView.provider ∧
    residentCount sampleView = 5 ∧
    residentCount (setProvider sampleView providerB) = 5 ∧
    residentCount (setProvider sampleView providerB) ≠ 0 := by decide

/-- C1 (amended): `setProvider` with a provider distinct from the
current one (and likewise `setHeightProvider`) installs the new
provider and clears the tree in place: the resident-node shape and
count are unchanged, every resident `MapNode` has its children cache
dropped, and its freshly issued texture request goes to the new
color provider (for a height-provider swap, to the unchanged current
color provider). -/
theorem C1_provider_swap_clears_in_place (s : MapViewState) (p : Provider)
    (hp : Option Provider) (hP : p ≠ s.provider) (hH : hp ≠ s.heightProvider) :
    ((setProvider s p).provider = p ∧
     residentShape (setProvider s p) = residentShape s ∧
     residentCount (setProvider s p) = residentCount s ∧
     ∀ d ∈ residentDatas (setProvider s p), d.ctor.isMapNodeVariant = true →
       d.childrenCache = false ∧ d.lastRequestProvider = some p.id) ∧
    ((setHeightProvider s hp).heightProvider = hp ∧
     residentShape (setHeightProvider s hp) = residentShape s ∧
     residentCount (setHeightProvider s hp) = residentCount s ∧
     ∀ d ∈ residentDatas (setHeightProvider s hp), d.ctor.isMapNodeVariant = true →
       d.childrenCache = false ∧ d.lastRequestProvider = some s.provider.id) := by
  rw [setProvider_changed s p hP, setHeightProvider_changed s hp hH]
  exact ⟨⟨rfl, clearState_residentShape _, clearState_residentCount _,
      residentDatas_clearState_variant _⟩,
    ⟨rfl, clearState_residentShape _, clearState_residentCount _,
      residentDatas_clearState_variant _⟩⟩

/-- C1 (witness): the amended statement instantiated on the five-node
fixture view and the distinct provider `providerB`. -/
theorem C1_witness :
    providerB ≠ sampleView.provider ∧
    (setProvider sampleView providerB).provider = providerB :=
  ⟨by decide,
    (C1_provider_swap_clears_in_place sampleView providerB (some providerB)
      (by decide) (by decide)).1.1⟩

/-- C2 (code bug): the registry maps `PLANAR` to `MapPlaneNode`, but
`setRoot(PLANAR)` builds the new root with `new root.constructor(...)`
while `root` is still the number — the JS `Number` constructor — so the
installed root is a `Number` object, not a `MapPlaneNode`; the computed
`rootConstructor` is never used, and the call then throws a `TypeError`
at `this.scale.copy(undefined)`. -/
theorem C2_setRoot_mode_number_constructor :
    MapView.mapModesGet MapView.PLANAR = some NodeCtor.MapPlaneNode ∧
    rootCtor (setRoot sampleView (.mode MapView.PLANAR)).2 =
      some NodeCtor.NumberCtor ∧
    NodeCtor.NumberCtor ≠ NodeCtor.MapPlaneNode ∧
    (setRoot sampleView (.mode MapView.PLANAR)).1 = some JsError.typeError := by
  decide

/-- C3: for every mode id absent from the registry, `setRoot` throws
the registration error synchronously, leaving the whole view state —
in particular its root — untouched, and the error propagates out of
the only internal caller, the constructor, unrecovered. -/
theorem C3_setRoot_unregistered_throws (s : MapViewState) (m : Nat)
    (h : MapView.mapModesHas m = false) :
    setRoot s (.mode m) = (some (.modeNotRegistered m), s) ∧
    ∀ vId p hpv osm, (mkMapView vId (.mode m) p hpv osm).1 =
      some (JsError.modeNotRegistered m) := by
  have key : ∀ s' : MapViewState,
      setRoot s' (.mode m) = (some (.modeNotRegistered m), s') := by
    intro s'
    simp [setRoot, h]
  exact ⟨key s, fun vId p hpv osm => by simp [mkMapView, key]⟩

/-- C3 (witness): mode id 999 is unregistered and `setRoot` throws on
it without touching the fixture view. -/
theorem C3_witness :
    MapView.mapModesHas 999 = false ∧
    setRoot sampleView (RootArg.mode 999) =
      (some (JsError.modeNotRegistered 999), sampleView) :=
  ⟨by decide, (C3_setRoot_unregistered_throws sampleView 999 (by decide)).1⟩

/-- C4: `clear` visits every resident node, nulls its children cache
and triggers a texture re-request served by the current provider,
leaves the resident tree shape and node count unchanged, and returns
the view itself. -/
theorem C4_clear_spec (s : MapViewState) :
    (clear s).1 = clearState s ∧
    residentShape (clearState s) = residentShape s ∧
    residentCount (clearState s) = residentCount s ∧
    residentDatas (clearState s) =
      (residentDatas s).map (clearData s.provider.id) ∧
    (∀ d : NodeData, d.ctor.isMapNodeVariant = true →
      (clearData s.provider.id d).childrenCache = false ∧
      (clearData s.provider.id d).textureRequests = d.textureRequests + 1 ∧
      (clearData s.provider.id d).lastRequestProvider = some s.provider.id) ∧
    (clear s).2 = s.viewId :=
  ⟨rfl, clearState_residentShape s, clearState_residentCount s,
    clearState_residentDatas s, fun d hd => clearData_variant _ d hd, rfl⟩

/-- C4 (witness): the clear specification instantiated on the fixture
view and the data of one of its resident leaf nodes. -/
theorem C4_witness :
    residentShape (clearState sampleView) = residentShape sampleView ∧
    (clearData sampleView.provider.id planeLeafData).childrenCache = false :=
  ⟨(C4_clear_spec sampleView).2.1,
    ((C4_clear_spec sampleView).2.2.2.2.1 planeLeafData (by decide)).1⟩

/-- C5: the per-frame `onBeforeRender` hook performs exactly one
`updateLOD` invocation, on the LOD control of the view, passing the
current camera (with the view, renderer and scene), and no other
`MapView` method performs any `updateLOD` invocation. -/
theorem C5_onBeforeRender_updateLOD_once (s : MapViewState)
    (renderer scene camera : Nat) :
    onBeforeRender s renderer scene camera =
      [{ control := s.lod, view := s.viewId, camera := camera,
         renderer := renderer, scene := scene }] ∧
    (onBeforeRender s renderer scene camera).length = 1 ∧
    ∀ m : ViewMethod, methodLodCalls m = [] :=
  ⟨rfl, rfl, fun _ => rfl⟩

/-- C6: the `mapModes` registry holds exactly four entries — `PLANAR`
maps to `MapPlaneNode`, `SPHERICAL` to `MapSphereNode`, `HEIGHT` to
`MapHeightNode`, `HEIGHT_SHADER` to `MapHeightNodeShader` — and no
other mode id is registered. -/
theorem C6_mapModes_registry :
    MapView.mapModes.length = 4 ∧
    MapView.mapModesGet MapView.PLANAR = some NodeCtor.MapPlaneNode ∧
    MapView.mapModesGet MapView.SPHERICAL = some NodeCtor.MapSphereNode ∧
    MapView.mapModesGet MapView.HEIGHT = some NodeCtor.MapHeightNode ∧
    MapView.mapModesGet MapView.HEIGHT_SHADER = some NodeCtor.MapHeightNodeShader ∧
    ∀ m : Nat, MapView.mapModesHas m = true ↔
      m = MapView.PLANAR ∨ m = MapView.SPHERICAL ∨ m = MapView.HEIGHT ∨
      m = MapView.HEIGHT_SHADER := by
  refine ⟨rfl, rfl, rfl, rfl, rfl, fun m => ?_⟩
  rcases eq_or_ne m 200 with rfl | h1
  · decide
  rcases eq_or_ne m 201 with rfl | h2
  · decide
  rcases eq_or_ne m 202 with rfl | h3
  · decide
  rcases eq_or_ne m 203 with rfl | h4
  · decide
  have e1 : (m == 200) = false := beq_eq_false_iff_ne.mpr h1
  have e2 : (m == 201) = false := beq_eq_false_iff_ne.mpr h2
  have e3 : (m == 202) = false := beq_eq_false_iff_ne.mpr h3
  have e4 : (m == 203) = false := beq_eq_false_iff_ne.mpr h4
  simp [MapView.mapModesHas, MapView.mapModesGet, MapView.mapModes,
    MapView.PLANAR, MapView.SPHERICAL, MapView.HEIGHT, MapView.HEIGHT_SHADER,
    List.lookup, e1, e2, e3, e4, h1, h2, h3, h4]

/-- C6 (witness): the registry membership characterization
instantiated at the spherical mode id. -/
theorem C6_witness : MapView.mapModesHas 201 = true :=
  (C6_mapModes_registry.2.2.2.2.2 201).mpr (Or.inr (Or.inl rfl))

/-- C7 (counterexample): on the fixture view, `setRoot` with the
registered mode id `PLANAR` does not return normally — it throws a
`TypeError` — and at the throw the installed root is a `Number`
object, the new root has not been attached as a child (the child list
is empty), and the geometry of the view is `undefined`, not the
`BASE_GEOMETRY` of the requested `MapPlaneNode` variant. -/
theorem C7_counterexample :
    (setRoot sampleView (.mode MapView.PLANAR)).1 = some JsError.typeError ∧
    (setRoot sampleView (.mode MapView.PLANAR)).2.geometry = none ∧
    baseGeometry NodeCtor.MapPlaneNode = some Geom.planeGeometry ∧
    (setRoot sampleView (.mode MapView.PLANAR)).2.children = [] ∧
    rootCtor (setRoot sampleView (.mode MapView.PLANAR)).2 =
      some NodeCtor.NumberCtor := by decide

/-- C7 (amended): for every `MapNode` instance argument of a
registered variant, `setRoot` returns normally and: the previous root
is detached (removed from the child list and replaced), the new root
is attached as a child with its `mapView` back-reference set to the
view, the geometry and scale of the view come from the `BASE_GEOMETRY`
and `BASE_SCALE` of the variant of the new root, and no other field
(`lod`, `provider`, `heightProvider`, identity) changes.  Mode-id
arguments do not return normally (see the C7 counterexample). -/
theorem C7_setRoot_node_frame (s : MapViewState) (t : Tree)
    (hv : t.data.ctor.isMapNodeVariant = true) :
    (setRoot s (.node t)).1 = none ∧
    (setRoot s (.node t)).2.root = some (t.setMapView s.viewId) ∧
    (t.setMapView s.viewId).data.mapView = some s.viewId ∧
    (setRoot s (.node t)).2.geometry = baseGeometry t.data.ctor ∧
    (setRoot s (.node t)).2.scale = baseScale t.data.ctor ∧
    (s.root = none →
      (setRoot s (.node t)).2.children = s.children ++ [t.setMapView s.viewId]) ∧
    (∀ r, s.root = some r →
      (setRoot s (.node t)).2.children =
        s.children.erase r ++ [t.setMapView s.viewId]) ∧
    (setRoot s (.node t)).2.lod = s.lod ∧
    (setRoot s (.node t)).2.provider = s.provider ∧
    (setRoot s (.node t)).2.heightProvider = s.heightProvider ∧
    (setRoot s (.node t)).2.viewId = s.viewId := by
  have h := setRootInstall_spec s t hv
  have hmv : (t.setMapView s.viewId).data.mapView = some s.viewId := by
    cases t; rfl
  exact ⟨h.1, h.2.1, hmv, h.2.2.1, h.2.2.2.1, h.2.2.2.2.1, h.2.2.2.2.2.1,
    h.2.2.2.2.2.2.1, h.2.2.2.2.2.2.2.1, h.2.2.2.2.2.2.2.2.1,
    h.2.2.2.2.2.2.2.2.2⟩

/-- C7 (witness): the amended statement instantiated on the fixture
view and a plane leaf node. -/
theorem C7_witness :
    planeLeaf.data.ctor.isMapNodeVariant = true ∧
    (setRoot sampleView (.node planeLeaf)).1 = none :=
  ⟨by decide, (C7_setRoot_node_frame sampleView planeLeaf (by decide)).1⟩

/-- C8: a successfully constructed view (root argument a `MapNode`
variant instance) built without a color provider gets a fresh
`OpenStreetMapsProvider`; without a height provider it gets `null`;
and its LOD control is always a `LODRaycast`. -/
theorem C8_constructor_defaults (vId osm : Nat) (t : Tree) (p hpv : Option Provider)
    (hv : t.data.ctor.isMapNodeVariant = true) :
    ((mkMapView vId (.node t) none hpv osm).1 = none ∧
     (mkMapView vId (.node t) none hpv osm).2.provider =
       { id := osm, kind := .OpenStreetMapsProvider }) ∧
    (mkMapView vId (.node t) p none osm).2.heightProvider = none ∧
    (mkMapView vId (.node t) p hpv osm).2.lod = LodKind.LODRaycast := by
  have h1 := setRootInstall_spec
    { viewId := vId, lod := .LODRaycast,
      provider := { id := osm, kind := .OpenStreetMapsProvider },
      heightProvider := hpv, root := none, children := [],
      geometry := none, scale := none } t hv
  have h2 := setRootInstall_spec
    { viewId := vId, lod := .LODRaycast, provider := p.getD { id := osm, kind := .OpenStreetMapsProvider },
      heightProvider := none, root := none, children := [],
      geometry := none, scale := none } t hv
  have h3 := setRootInstall_spec
    { viewId := vId, lod := .LODRaycast, provider := p.getD { id := osm, kind := .OpenStreetMapsProvider },
      heightProvider := hpv, root := none, children := [],
      geometry := none, scale := none } t hv
  exact ⟨⟨h1.1, h1.2.2.2.2.2.2.2.1⟩, h2.2.2.2.2.2.2.2.2.1,
    h3.2.2.2.2.2.2.1⟩

/-- C8 (witness): the constructor defaults instantiated with a plane
leaf root and no providers. -/
theorem C8_witness :
    planeLeaf.data.ctor.isMapNodeVariant = true ∧
    (mkMapView 3 (.node planeLeaf) none none 11).2.provider =
      { id := 11, kind := ProviderKind.OpenStreetMapsProvider } :=
  ⟨by decide, (C8_constructor_defaults 3 11 planeLeaf none none (by decide)).1.2⟩

/-- C9: `setProvider` with the provider already installed (same
reference) leaves the view state unchanged, likewise
`setHeightProvider`; hence a second consecutive call with the same
argument is always a no-op. -/
theorem C9_provider_identity_noop (s : MapViewState) (p : Provider)
    (hpv : Option Provider) :
    (p = s.provider → setProvider s p = s) ∧
    (hpv = s.heightProvider → setHeightProvider s hpv = s) ∧
    setProvider (setProvider s p) p = setProvider s p ∧
    setHeightProvider (setHeightProvider s hpv) hpv = setHeightProvider s hpv := by
  refine ⟨fun h => by unfold setProvider; rw [if_pos h],
    fun h => by unfold setHeightProvider; rw [if_pos h], ?_, ?_⟩
  · by_cases h : p = s.provider
    · have e : setProvider s p = s := by unfold setProvider; rw [if_pos h]
      rw [e, e]
    · rw [setProvider_changed s p h]
      unfold setProvider
      exact if_pos rfl
  · by_cases h : hpv = s.heightProvider
    · have e : setHeightProvider s hpv = s := by
        unfold setHeightProvider; rw [if_pos h]
      rw [e, e]
    · rw [setHeightProvider_changed s hpv h]
      unfold setHeightProvider
      exact if_pos rfl

/-- C9 (witness): re-setting the already-installed provider of the
fixture view is a no-op. -/
theorem C9_witness :
    providerA = sampleView.provider ∧
    setProvider sampleView providerA = sampleView :=
  ⟨by decide, (C9_provider_identity_noop sampleView providerA none).1 (by decide)⟩

/-- C10: `MapView.raycast` always returns `false` and leaves the
intersection list exactly as it was: the base mesh of the view never
contributes a pick hit. -/
theorem C10_raycast_false (s : MapViewState) (rc : Nat) (intersects : List Nat) :
    raycast s rc intersects = (false, intersects) := rfl

end GeoThree
